import Mathlib

/-!
Verification of the review-system classifier of the commit-telemetry service
(`committelemetry/classifier.py`) and of its diffstat companion, as a shallow
embedding in Lean.  Python dictionaries become structures, regular-expression
searches become explicit character-list scanners with the same matching
semantics, and code that can raise becomes `Except`-valued.  External
collaborators (the `mozautomation.commitparser.parse_bugs` library function and
the two Bugzilla fetchers) are parameters of the embedding, so theorems can
quantify over every behaviour of the bug-data provider.
-/

set_option autoImplicit false

namespace CommitTelemetry

/-! ### Data model -/

/-- A Bugzilla attachment, restricted to the JSON fields the classifier reads:
`content_type` (string), `is_obsolete` (0/1 integer) and `is_patch`
(0/1 integer). -/
structure Attachment where
  content_type : String
  is_obsolete : Nat
  is_patch : Nat
  deriving DecidableEq, Repr

/-- One change inside a bug-history change group: the JSON fields
`field_name` and `added` (a comma-separated string of flags). -/
structure Change where
  field_name : String
  added : String
  deriving DecidableEq, Repr

/-- A bug-history change group: the JSON field `changes`. -/
structure ChangeGroup where
  changes : List Change
  deriving DecidableEq, Repr

/-- The hgweb revision JSON, restricted to the fields `determine_review_system`
reads: `desc`, `node`, `user` and `parents`. -/
structure RevisionJson where
  desc : String
  node : String
  user : String
  parents : List String
  deriving DecidableEq, Repr

/-- The `ReviewSystem` enum of `classifier.py`. -/
inductive ReviewSystem where
  | phabricator
  | mozreview
  | bmo
  | no_bug
  | review_unneeded
  | unknown
  | not_applicable
  deriving DecidableEq, Repr

/-- Failures the bug-data fetchers can raise across the provider boundary:
`classifier.NotAuthorized`, `requests.exceptions.HTTPError`, or any other
exception (for example a connection error). -/
inductive FetchFailure where
  | notAuthorized
  | httpError
  | otherFailure
  deriving DecidableEq, Repr

/-- Python exceptions that can escape `determine_review_system` itself:
the `IndexError` of `split_summary` on an empty description, or a fetch
failure that no `except` clause catches. -/
inductive PyErr where
  | indexError
  | uncaughtFetch
  deriving DecidableEq, Repr

/-- The pair of Bugzilla fetchers (`fetch_attachments`, `fetch_bug_history`),
abstracted as a capability so theorems quantify over every provider
behaviour. -/
structure BugDataProvider where
  fetchAttachments : Nat → Except FetchFailure (List Attachment)
  fetchBugHistory : Nat → Except FetchFailure (List ChangeGroup)

/-! ### String machinery shared by the regex embeddings -/

/-- Lowercase a string into its character list; models how `re.IGNORECASE`
matching of an ASCII pattern behaves on the inputs at hand. -/
def lowerChars (s : String) : List Char :=
  s.data.map Char.toLower

/-- A word character in the sense of the regex class `\w` (ASCII range,
which covers every input the classifier handles). -/
def isWordChar (c : Char) : Bool :=
  c.isAlphanum || c = '_'

/-- A `\b` boundary relative to the character preceding the match position:
satisfied at the start of the string or after a non-word character. -/
def boundaryOk : Option Char → Bool
  | none => true
  | some c => !isWordChar c

/-! ### Bugzilla attachment types (module constants of `classifier.py`) -/

def ATTACHMENT_TYPE_MOZREVIEW : String := "text/x-review-board-request"

def ATTACHMENT_TYPE_GITHUB : String := "text/x-github-request"

def ATTACHMENT_TYPE_PHABRICATOR : String := "text/x-phabricator-request"

/-! ### Regex embeddings

Each compiled module-level pattern of `classifier.py` becomes an explicit
scanner with the same `re.search` semantics. -/

/-- Search for `BACKOUT_RE`, the pattern anchored at the start of the string:
back, optionally followed by ed or ing, then a space, out, and a space,
case-insensitively.  Anchored search is a prefix test. -/
def backoutRegexSearch (s : String) : Bool :=
  "backed out ".data.isPrefixOf (lowerChars s) ||
    "backing out ".data.isPrefixOf (lowerChars s) ||
    "back out ".data.isPrefixOf (lowerChars s)

/-- Search step for `NOBUG_RE`: the literal `no bug` delimited by `\b` on both
sides, tried at every position; `prev` is the character before the current
position. -/
def nobugSearch : Option Char → List Char → Bool
  | _, [] => false
  | prev, c :: rest =>
    (boundaryOk prev &&
      "no bug".data.isPrefixOf (c :: rest) &&
      boundaryOk ((c :: rest).drop 6).head?) ||
    nobugSearch (some c) rest

/-- Match of `UPLIFT_RE` at the current position: `a=` followed by at least one
word character.  The trailing `\b` of the pattern is always satisfiable by
taking the maximal word-character run, so one following word character
suffices for a search hit. -/
def upliftAt : List Char → Bool
  | 'a' :: '=' :: d :: _ => isWordChar d
  | _ => false

/-- Search for `UPLIFT_RE` (`\b` then `a=` then word characters) at every
position of the string. -/
def upliftSearch : Option Char → List Char → Bool
  | _, [] => false
  | prev, c :: rest => (boundaryOk prev && upliftAt (c :: rest)) || upliftSearch (some c) rest

/-- Strip a literal pattern from the front of a character list, returning the
remainder on success. -/
def dropPrefixChars : List Char → List Char → Option (List Char)
  | [], cs => some cs
  | _ :: _, [] => none
  | p :: ps, c :: cs => if c = p then dropPrefixChars ps cs else none

/-- Tail of `WPT_SYNC_BOT_RE` after the closing bracket: `(.*) a=testonly`,
where the dot does not match a newline.  Searches for the literal
followed by arbitrary non-newline characters before it. -/
def wptSuffixSearch : List Char → Bool
  | [] => false
  | c :: rest =>
    if " a=testonly".data.isPrefixOf (c :: rest) then true
    else if c = '\n' then false
    else wptSuffixSearch rest

/-- Match of `WPT_SYNC_BOT_RE` at the current position: the literal
`[wpt PR `, one or more digits, `]`, then `(.*) a=testonly`. -/
def wptMatchAt (cs : List Char) : Bool :=
  match dropPrefixChars "[wpt PR ".data cs with
  | none => false
  | some rest1 =>
    let ds := rest1.takeWhile Char.isDigit
    if ds.isEmpty then false
    else
      match rest1.drop ds.length with
      | ']' :: rest2 => wptSuffixSearch rest2
      | _ => false

/-- Search for `WPT_SYNC_BOT_RE` at every position of the string. -/
def wptSearch : List Char → Bool
  | [] => false
  | c :: rest => wptMatchAt (c :: rest) || wptSearch rest

/-! ### Classifier predicates (`classifier.py`) -/

/-- Python `is_patch(attachment)`: the attachment is a raw patch or carries one
of the three review-request content types. -/
def is_patch (attachment : Attachment) : Bool :=
  attachment.is_patch == 1 ||
    attachment.content_type == ATTACHMENT_TYPE_MOZREVIEW ||
    attachment.content_type == ATTACHMENT_TYPE_GITHUB ||
    attachment.content_type == ATTACHMENT_TYPE_PHABRICATOR

/-- Python `collect_review_attachments(attachments)`: keep the active
attachments whose content type is the GitHub or Phabricator request type or
whose `is_patch` flag is set. -/
def collect_review_attachments (attachments : List Attachment) : List Attachment :=
  attachments.filter fun a =>
    a.is_obsolete == 0 &&
      (a.content_type == ATTACHMENT_TYPE_GITHUB ||
        a.content_type == ATTACHMENT_TYPE_PHABRICATOR ||
        a.is_patch == 1)

/-- Python `has_phab_markers(attachments)`: some patch-like attachment has the
Phabricator request content type. -/
def has_phab_markers (attachments : List Attachment) : Bool :=
  (attachments.filter is_patch).any fun patch_attachment =>
    patch_attachment.content_type == ATTACHMENT_TYPE_PHABRICATOR

/-- Python `has_backout_markers(revision_description)`. -/
def has_backout_markers (revision_description : String) : Bool :=
  backoutRegexSearch revision_description

/-- Python `has_merge_markers(revision_json)`: more than one parent. -/
def has_merge_markers (revision_json : RevisionJson) : Bool :=
  revision_json.parents.length > 1

/-- Python `str.split(sep)` for a one-character separator, on character
lists: the empty string yields one empty field. -/
def pySplitChars (sep : Char) : List Char → List (List Char)
  | [] => [[]]
  | c :: cs =>
    match pySplitChars sep cs with
    | [] => if c = sep then [[], []] else [[c]]
    | g :: gs => if c = sep then [] :: g :: gs else (c :: g) :: gs

/-- Python `change['added'].split(',')`. -/
def splitFlags (added : String) : List String :=
  (pySplitChars ',' added.data).map fun cs => String.mk cs

/-- Python `has_bmo_patch_review_markers(attachments, bug_history)`: at least
one raw patch attachment, and some bug-history change to `flagtypes.name`
whose added flags include `review+`. -/
def has_bmo_patch_review_markers (attachments : List Attachment)
    (bug_history : List ChangeGroup) : Bool :=
  let patches := attachments.filter fun a => a.is_patch == 1
  if patches.isEmpty then false
  else
    bug_history.any fun change_group =>
      change_group.changes.any fun change =>
        change.field_name == "flagtypes.name" &&
          (splitFlags change.added).contains "review+"

/-- Python `has_no_bug_marker(summary)`. -/
def has_no_bug_marker (summary : String) : Bool :=
  nobugSearch none (lowerChars summary)

/-- Python `has_uplift_markers(summary)`. -/
def has_uplift_markers (summary : String) : Bool :=
  upliftSearch none (lowerChars summary)

/-- Python `has_wpt_uplift_markers(commit_author, summary)`. -/
def has_wpt_uplift_markers (commit_author : String) (summary : String) : Bool :=
  wptSearch summary.data || commit_author == "moz-wptsync-bot <wptsync@mozilla.com>"

/-- A line-break character in the sense of Python `str.splitlines`. -/
def isLineBreak (c : Char) : Bool :=
  c = '\n' || c = '\r' || c = Char.ofNat 11 || c = Char.ofNat 12 ||
    c = Char.ofNat 28 || c = Char.ofNat 29 || c = Char.ofNat 30 ||
    c = Char.ofNat 133 || c = Char.ofNat 8232 || c = Char.ofNat 8233

/-- Python `split_summary(s)`, which returns `s.splitlines()[0]`: the first
line of a non-empty string, and an `IndexError` on the empty string (whose
`splitlines` is the empty list). -/
def split_summary (s : String) : Except PyErr String :=
  if s.data.isEmpty then Except.error PyErr.indexError
  else Except.ok (String.mk (s.data.takeWhile fun c => !isLineBreak c))

/-! ### Regression checks mirroring `tests/test_classifier.py` -/

example : has_no_bug_marker "no bug - foo" = true := by decide
example : has_no_bug_marker "bar baz - No bug, blah" = true := by decide
example : has_no_bug_marker "bar baz - NO BUG" = true := by decide
example : has_no_bug_marker "Bug 1234 - blah blah" = false := by decide
example : has_no_bug_marker "Bug 1234 - No blah for bug" = false := by decide

example : split_summary "foo" = Except.ok "foo" := rfl
example : split_summary "foo\nbar\nbaz" = Except.ok "foo" := rfl

example : has_wpt_uplift_markers "" "Bug 123 - [wpt PR 123] foo bar a=testonly" = true := by
  decide
example : has_wpt_uplift_markers "" "Bug 123 - [wpt PR 123] foo bar a=testonly extra" = true := by
  decide
example : has_wpt_uplift_markers "" "Bug 123 - [wpt PR 123]" = false := by decide
example : has_wpt_uplift_markers "" "Bug 123 - foo bar a=testonly" = false := by decide
example : has_wpt_uplift_markers "moz-wptsync-bot <wptsync@mozilla.com>" "summary" = true := by
  decide
example : has_wpt_uplift_markers "someone <anon@mozilla.com>" "summary" = false := by decide

example : has_uplift_markers "Bug 123 - foo bar a=testonly" = true := by decide
example : has_uplift_markers "Bug 123 - foo bar a=multiple,somethings r=me" = true := by decide
example : has_uplift_markers "Bug 123 - foo bar a=merge" = true := by decide
example : has_uplift_markers "Bug 123 - r=testonly" = false := by decide

example : has_backout_markers "Backed out 4 changesets (bug 1448077) for failures" = true := by
  decide
example : has_backout_markers "Backing out bad patch" = true := by decide
example : has_backout_markers "Back out changeset abc" = true := by decide
example : has_backout_markers "Bug 1 - backed out nothing" = false := by decide

/-! ### The classifier -/

/-- Bug-id phase of `determine_review_system` (everything after a bug id has
been parsed out of the summary): fetch attachments and history, mapping
`NotAuthorized` to `no_bug` and `requests.exceptions.HTTPError` to `unknown`,
letting any other exception propagate; then try Phabricator markers, then BMO
patch-review markers, else `unknown`. -/
def classify_with_bug (provider : BugDataProvider) (bug_id : Nat) :
    Except PyErr ReviewSystem :=
  match provider.fetchAttachments bug_id with
  | Except.error FetchFailure.notAuthorized => Except.ok ReviewSystem.no_bug
  | Except.error FetchFailure.httpError => Except.ok ReviewSystem.unknown
  | Except.error FetchFailure.otherFailure => Except.error PyErr.uncaughtFetch
  | Except.ok attachments =>
    match provider.fetchBugHistory bug_id with
    | Except.error FetchFailure.notAuthorized => Except.ok ReviewSystem.no_bug
    | Except.error FetchFailure.httpError => Except.ok ReviewSystem.unknown
    | Except.error FetchFailure.otherFailure => Except.error PyErr.uncaughtFetch
    | Except.ok bug_history =>
      let review_attachments := collect_review_attachments attachments
      if has_phab_markers review_attachments then Except.ok ReviewSystem.phabricator
      else if has_bmo_patch_review_markers review_attachments bug_history then
        Except.ok ReviewSystem.bmo
      else Except.ok ReviewSystem.unknown

/-- Python `determine_review_system(revision_json)`.  The external
`mozautomation.commitparser.parse_bugs` library function and the two Bugzilla
fetchers are parameters.  The summary-only checks run in the source's order;
`parse_bugs(summary)[0]` raising `IndexError` on an empty list is caught and
mapped to `unknown`. -/
def determine_review_system (parse_bugs : String → List Nat)
    (provider : BugDataProvider) (revision_json : RevisionJson) :
    Except PyErr ReviewSystem :=
  match split_summary revision_json.desc with
  | Except.error e => Except.error e
  | Except.ok summary =>
    if has_backout_markers summary then Except.ok ReviewSystem.review_unneeded
    else if has_merge_markers revision_json then Except.ok ReviewSystem.not_applicable
    else if has_no_bug_marker summary then Except.ok ReviewSystem.no_bug
    else if has_uplift_markers summary then Except.ok ReviewSystem.review_unneeded
    else if has_wpt_uplift_markers revision_json.user summary then
      Except.ok ReviewSystem.review_unneeded
    else
      match parse_bugs summary with
      | [] => Except.ok ReviewSystem.unknown
      | bug_id :: _ => classify_with_bug provider bug_id

/-! ### Sample data, mirroring `tests/test_classifier.py` -/

/-- The MozReview URL attachment of the test suite (a non-patch). -/
def mozreview_attachment : Attachment :=
  { content_type := ATTACHMENT_TYPE_MOZREVIEW, is_obsolete := 0, is_patch := 0 }

/-- The Phabricator URL attachment of the test suite. -/
def phabricator_attachment : Attachment :=
  { content_type := ATTACHMENT_TYPE_PHABRICATOR, is_obsolete := 0, is_patch := 0 }

/-- The raw BMO patch attachment of the test suite. -/
def bmo_patch_attachment : Attachment :=
  { content_type := "text/plain", is_obsolete := 0, is_patch := 1 }

/-- The bug-history entry of the test suite granting review+. -/
def patch_review_history : List ChangeGroup :=
  [{ changes := [{ field_name := "flagtypes.name", added := "review+" }] }]

/-- A provider whose fetches succeed with empty data. -/
def emptyOkProvider : BugDataProvider :=
  { fetchAttachments := fun _ => Except.ok []
    fetchBugHistory := fun _ => Except.ok [] }

/-- A provider that refuses both fetches with `NotAuthorized`. -/
def notAuthProvider : BugDataProvider :=
  { fetchAttachments := fun _ => Except.error FetchFailure.notAuthorized
    fetchBugHistory := fun _ => Except.error FetchFailure.notAuthorized }

/-- A provider whose fetches fail with `requests.exceptions.HTTPError`. -/
def httpErrProvider : BugDataProvider :=
  { fetchAttachments := fun _ => Except.error FetchFailure.httpError
    fetchBugHistory := fun _ => Except.error FetchFailure.httpError }

/-- A provider whose fetches fail with an exception the classifier does not
catch (for example `requests.exceptions.ConnectionError`). -/
def crashProvider : BugDataProvider :=
  { fetchAttachments := fun _ => Except.error FetchFailure.otherFailure
    fetchBugHistory := fun _ => Except.error FetchFailure.otherFailure }

/-- The provider of the `test_phabricator_is_preferred_if_present` scenario. -/
def phabAndPatchProvider : BugDataProvider :=
  { fetchAttachments := fun _ => Except.ok [phabricator_attachment, bmo_patch_attachment]
    fetchBugHistory := fun _ => Except.ok patch_review_history }

/-- The provider of the `test_plain_old_patch_is_preferred_if_mozreview_present`
scenario. -/
def mozreviewAndPatchProvider : BugDataProvider :=
  { fetchAttachments := fun _ => Except.ok [mozreview_attachment, bmo_patch_attachment]
    fetchBugHistory := fun _ => Except.ok patch_review_history }

/-- The `revision_json` sample of the test suite (fields the classifier reads). -/
def sample_revision : RevisionJson :=
  { desc := "Bug 1463962 - crash near null, r=jamie"
    node := "445d1a7b050419f0ea266b0c191001d788f7850d"
    user := "Test User <author@mozilla.com>"
    parents := ["83f4bc25eec8e4ff1b340d8a33e10baf62aa36d1"] }

/-- A stand-in for the external bug parser that finds bug 1463962 first. -/
def parse_bugs_sample : String → List Nat := fun _ => [1463962]

example :
    collect_review_attachments
        [{ mozreview_attachment with is_obsolete := 1 }, phabricator_attachment] =
      [phabricator_attachment] := rfl

example :
    collect_review_attachments [mozreview_attachment, phabricator_attachment] =
      [phabricator_attachment] := rfl

example :
    collect_review_attachments [phabricator_attachment, bmo_patch_attachment] =
      [phabricator_attachment, bmo_patch_attachment] := rfl

example :
    determine_review_system parse_bugs_sample phabAndPatchProvider sample_revision =
      Except.ok ReviewSystem.phabricator := rfl

example :
    determine_review_system parse_bugs_sample mozreviewAndPatchProvider sample_revision =
      Except.ok ReviewSystem.bmo := rfl

/-! ### Diffstat parser -/

/-- The `DiffStat` result record: counts of changed files, added lines and
removed lines. -/
structure DiffStat where
  files_changed : Nat
  additions : Nat
  deletions : Nat
  deriving DecidableEq, Repr

/-- Does a line start with the given literal marker? -/
def lineStartsWith (marker : String) (l : List Char) : Bool :=
  marker.data.isPrefixOf l

/-- Hunk flag after scanning one ordinary line: a `@@ ... @@` hunk header
turns body counting on; every other ordinary line leaves it unchanged. -/
def hunkFlagAfter (inHunk : Bool) (l : List Char) : Bool :=
  if lineStartsWith "@@" l then true else inHunk

/-- Additions/deletions contributed by one ordinary line, judged by its first
character only, and only inside a hunk body; the `@@` hunk marker itself is
ignored. -/
def bodyDelta (inHunk : Bool) (l : List Char) : Nat × Nat :=
  if lineStartsWith "@@" l then (0, 0)
  else if inHunk && lineStartsWith "+" l then (1, 0)
  else if inHunk && lineStartsWith "-" l then (0, 1)
  else (0, 0)

/-- Modelled from the spec: the repository module `committelemetry/patch.py`
(function `diffstat`, exercised by `tests/test_diffstat.py`) is not present
under src/, so this scanner follows the algorithm of the specification's
DiffStatParser section.  It walks the patch line by line; a `diff --git `
line or a `--- `/`+++ ` file-header pair opens a new file and increments
`files_changed` exactly once per file, regardless of whether the file has
content hunks (covering binary-file and pure-rename sections); inside a hunk
body, a line is classified by its first character only. -/
def scanPatchLines : List (List Char) → Bool → Bool → Nat × Nat × Nat
  | [], _, _ => (0, 0, 0)
  | [l], _, inHunk =>
    if lineStartsWith "diff --git " l then (1, 0, 0)
    else
      let d := bodyDelta inHunk l
      (0, d.1, d.2)
  | l :: l2 :: rest, fileOpen, inHunk =>
    if lineStartsWith "diff --git " l then
      let r := scanPatchLines (l2 :: rest) true false
      (r.1 + 1, r.2.1, r.2.2)
    else if lineStartsWith "--- " l && lineStartsWith "+++ " l2 then
      let r := scanPatchLines rest true false
      ((if fileOpen then 0 else 1) + r.1, r.2.1, r.2.2)
    else
      let d := bodyDelta inHunk l
      let r := scanPatchLines (l2 :: rest) fileOpen (hunkFlagAfter inHunk l)
      (r.1, d.1 + r.2.1, d.2 + r.2.2)

/-- Modelled from the spec: `diffstat(rawPatchText)` of the absent
`committelemetry/patch.py`.  Never fails; malformed input simply contributes
no counts. -/
def diffstat (rawPatchText : String) : DiffStat :=
  let r := scanPatchLines (pySplitChars '\n' rawPatchText.data) false false
  { files_changed := r.1, additions := r.2.1, deletions := r.2.2 }

/-- A line that can start a unified-diff structure: a git file header, the
first half of a `--- `/`+++ ` header pair, or a hunk header. -/
def diffMarkerLine (l : List Char) : Bool :=
  lineStartsWith "diff --git " l || lineStartsWith "--- " l || lineStartsWith "@@" l

/-- Text is parseable as a unified diff when some line carries a diff
structure marker; otherwise the scanner can recognize no file and no hunk. -/
def parseableAsDiff (rawPatchText : String) : Bool :=
  (pySplitChars '\n' rawPatchText.data).any diffMarkerLine

example :
    diffstat "--- a/f.txt\n+++ b/f.txt\n@@ -1,1 +1,1 @@\n-old\n+new\n" =
      { files_changed := 1, additions := 1, deletions := 1 } := rfl

example :
    diffstat "diff --git a/old b/new\nrename from old\nrename to new\n" =
      { files_changed := 1, additions := 0, deletions := 0 } := rfl

example :
    diffstat "diff --git a/pic b/pic\nindex e69de29..4b825dc\nGIT binary patch\nliteral 5\n" =
      { files_changed := 1, additions := 0, deletions := 0 } := rfl

example :
    diffstat "--- a/gone.txt\n+++ /dev/null\n@@ -1,1 +0,0 @@\n-bye\n" =
      { files_changed := 1, additions := 0, deletions := 1 } := rfl

example :
    diffstat "--- a/f\n+++ b/f\n@@ -1,1 +1,1 @@\n-+foo\n+-foo\n" =
      { files_changed := 1, additions := 1, deletions := 1 } := rfl

example : diffstat "" = { files_changed := 0, additions := 0, deletions := 0 } := rfl

example :
    diffstat "this is not a diff\nat all, just prose + some - signs\n" =
      { files_changed := 0, additions := 0, deletions := 0 } := rfl

/-! ### Helper lemmas -/

/-- Review-relevance of an attachment, written out as the property the filter
is claimed to apply: active, and GitHub-typed, Phabricator-typed or a raw
patch. -/
def review_relevant (a : Attachment) : Prop :=
  a.is_obsolete = 0 ∧
    (a.content_type = ATTACHMENT_TYPE_GITHUB ∨
      a.content_type = ATTACHMENT_TYPE_PHABRICATOR ∨ a.is_patch = 1)

instance (a : Attachment) : Decidable (review_relevant a) := by
  unfold review_relevant
  infer_instance

/-- The boolean filter condition of `collect_review_attachments` decides
exactly `review_relevant`. -/
theorem collect_filter_cond_eq_review_relevant (a : Attachment) :
    (a.is_obsolete == 0 &&
        (a.content_type == ATTACHMENT_TYPE_GITHUB ||
          a.content_type == ATTACHMENT_TYPE_PHABRICATOR ||
          a.is_patch == 1)) = decide (review_relevant a) := by
  rw [Bool.eq_iff_iff]
  simp [review_relevant, or_assoc]

/-! ### Claim theorems -/

/-- Claim C1: for every list of attachments, `collect_review_attachments`
returns exactly the sublist, in the original input order, of attachments with
`is_obsolete == 0` and (`content_type` equal to the GitHub or Phabricator
request type, or `is_patch == 1`); in particular the empty list yields the
empty list.  The function is total, so no error is raised. -/
theorem collect_review_attachments_is_exact_filter (attachments : List Attachment) :
    collect_review_attachments attachments =
        attachments.filter (fun a => decide (review_relevant a)) ∧
      collect_review_attachments [] = [] := by
  constructor
  · unfold collect_review_attachments
    exact List.filter_congr fun a _ => collect_filter_cond_eq_review_relevant a
  · rfl

/-- Closed instance of the C1 theorem at the review-attachment samples of the
test suite. -/
theorem collect_review_attachments_is_exact_filter_witness :
    collect_review_attachments [mozreview_attachment, phabricator_attachment] =
      List.filter (fun a => decide (review_relevant a))
        [mozreview_attachment, phabricator_attachment] :=
  (collect_review_attachments_is_exact_filter
    [mozreview_attachment, phabricator_attachment]).1

/-- Claim C2 is refuted by the code: an active MozReview-typed attachment whose
`is_patch` flag is 1 is kept by `collect_review_attachments`, because the
filter's disjunction accepts `is_patch == 1` without ever excluding the
MozReview content type, although the function's own docstring says MozReview
attachments are not returned.  This theorem evaluates the filter at that
failing input. -/
theorem mozreview_patch_attachment_is_kept :
    collect_review_attachments
        [{ content_type := ATTACHMENT_TYPE_MOZREVIEW, is_obsolete := 0, is_patch := 1 }] =
      [{ content_type := ATTACHMENT_TYPE_MOZREVIEW, is_obsolete := 0, is_patch := 1 }] := rfl

/-- Backout pattern as the claim (and the spec) writes it, with the
three-alternative optional group, so that `backout out ` is also an accepted
prefix; stated for comparison with the source's `BACKOUT_RE`. -/
def specBackoutRegexSearch (s : String) : Bool :=
  "back out ".data.isPrefixOf (lowerChars s) ||
    "backed out ".data.isPrefixOf (lowerChars s) ||
    "backing out ".data.isPrefixOf (lowerChars s) ||
    "backout out ".data.isPrefixOf (lowerChars s)

/-- Claim C3 as stated is refuted: the summary below matches the claim's
regular expression (via its `out` alternative), yet the classifier does not
return `review_unneeded`, because the source pattern `BACKOUT_RE` has an empty
third alternative rather than `out` and therefore does not match. -/
theorem spec_backout_regex_counterexample :
    specBackoutRegexSearch "Backout out bug 1234 - fix scrolling" = true ∧
      determine_review_system (fun _ => [1234]) emptyOkProvider
          { desc := "Backout out bug 1234 - fix scrolling", node := "abc", user := "user",
            parents := ["p1"] } =
        Except.ok ReviewSystem.unknown := ⟨rfl, rfl⟩

/-- Claim C3, amended to the source's pattern: for every commit whose summary
(the first line of its `desc`) matches `BACKOUT_RE` — back, optionally
followed by ed or ing, then space, out, space, case-insensitively, anchored at
the start — `determine_review_system` returns `review_unneeded`, independent
of the commit's parent count and of any bug id in the summary. -/
theorem backout_summary_yields_review_unneeded (parse_bugs : String → List Nat)
    (provider : BugDataProvider) (rev : RevisionJson) (s : String)
    (hs : split_summary rev.desc = Except.ok s)
    (hb : has_backout_markers s = true) :
    determine_review_system parse_bugs provider rev =
      Except.ok ReviewSystem.review_unneeded := by
  unfold determine_review_system
  rw [hs]
  simp [hb]

/-- Closed instance of the amended C3 theorem: a backed-out commit with two
parents and a bug id in the summary is still `review_unneeded`. -/
theorem backout_summary_yields_review_unneeded_witness :
    determine_review_system (fun _ => [99]) emptyOkProvider
        { desc := "Backed out changeset 9edd18e4c6ba (bug 99)", node := "n", user := "u",
          parents := ["p", "q"] } =
      Except.ok ReviewSystem.review_unneeded :=
  backout_summary_yields_review_unneeded _ _ _ "Backed out changeset 9edd18e4c6ba (bug 99)"
    rfl rfl

/-- Once every summary-only check has failed and a bug id has been parsed, the
classifier is exactly its bug-id phase at the first parsed id. -/
theorem determine_eq_classify_with_bug (parse_bugs : String → List Nat)
    (provider : BugDataProvider) (rev : RevisionJson) (s : String) (b : Nat) (bs : List Nat)
    (hs : split_summary rev.desc = Except.ok s)
    (h1 : has_backout_markers s = false)
    (h2 : has_merge_markers rev = false)
    (h3 : has_no_bug_marker s = false)
    (h4 : has_uplift_markers s = false)
    (h5 : has_wpt_uplift_markers rev.user s = false)
    (h6 : parse_bugs s = b :: bs) :
    determine_review_system parse_bugs provider rev = classify_with_bug provider b := by
  unfold determine_review_system
  rw [hs]
  simp [h1, h2, h3, h4, h5, h6]

/-- A revision whose summary carries bug 7 and triggers none of the
summary-only checks. -/
def simple_bug_revision : RevisionJson :=
  { desc := "Bug 7 - fix the thing", node := "0000", user := "someone <person@mozilla.com>",
    parents := ["p"] }

/-- Claim C4: whenever the bug-data fetch (either `fetch_attachments` or
`fetch_bug_history`, once the classifier has reached the fetch step) raises
`NotAuthorized`, `determine_review_system` returns `no_bug`; the result is an
ordinary value, so the exception never propagates to the caller. -/
theorem not_authorized_fetch_yields_no_bug (parse_bugs : String → List Nat)
    (provider : BugDataProvider) (rev : RevisionJson) (s : String) (b : Nat) (bs : List Nat)
    (hs : split_summary rev.desc = Except.ok s)
    (h1 : has_backout_markers s = false)
    (h2 : has_merge_markers rev = false)
    (h3 : has_no_bug_marker s = false)
    (h4 : has_uplift_markers s = false)
    (h5 : has_wpt_uplift_markers rev.user s = false)
    (h6 : parse_bugs s = b :: bs)
    (hfetch : provider.fetchAttachments b = Except.error FetchFailure.notAuthorized ∨
      ((∃ atts, provider.fetchAttachments b = Except.ok atts) ∧
        provider.fetchBugHistory b = Except.error FetchFailure.notAuthorized)) :
    determine_review_system parse_bugs provider rev = Except.ok ReviewSystem.no_bug := by
  rw [determine_eq_classify_with_bug parse_bugs provider rev s b bs hs h1 h2 h3 h4 h5 h6]
  unfold classify_with_bug
  rcases hfetch with h | ⟨⟨atts, ha⟩, hh⟩
  · rw [h]
  · rw [ha, hh]

/-- Closed instance of the C4 theorem: a confidential bug makes the commit
classify as no_bug. -/
theorem not_authorized_fetch_yields_no_bug_witness :
    determine_review_system (fun _ => [7]) notAuthProvider simple_bug_revision =
      Except.ok ReviewSystem.no_bug :=
  not_authorized_fetch_yields_no_bug _ notAuthProvider simple_bug_revision
    "Bug 7 - fix the thing" 7 [] rfl rfl rfl rfl rfl rfl rfl (Or.inl rfl)

/-- Claim C5 as stated is refuted: a fetch failure that is neither
`NotAuthorized` nor `requests.exceptions.HTTPError` (for example a connection
error) matches no `except` clause of `determine_review_system`, so at this
concrete input the classifier propagates the failure instead of returning
`unknown`. -/
theorem other_fetch_failure_counterexample :
    determine_review_system (fun _ => [7]) crashProvider simple_bug_revision =
        Except.error PyErr.uncaughtFetch ∧
      ¬ determine_review_system (fun _ => [7]) crashProvider simple_bug_revision =
          Except.ok ReviewSystem.unknown := by
  refine ⟨rfl, fun h => ?_⟩
  have hne : (Except.error PyErr.uncaughtFetch : Except PyErr ReviewSystem) =
      Except.ok ReviewSystem.unknown :=
    (rfl : determine_review_system (fun _ => [7]) crashProvider simple_bug_revision =
        Except.error PyErr.uncaughtFetch).symm.trans h
  exact Except.noConfusion hne

/-- Claim C5, amended to the exceptions the source actually catches: whenever
the bug-data fetch fails with `requests.exceptions.HTTPError`,
`determine_review_system` returns `unknown` without propagating the failure;
a fetch failure of any other kind besides `NotAuthorized` propagates to the
caller. -/
theorem http_error_fetch_yields_unknown (parse_bugs : String → List Nat)
    (provider : BugDataProvider) (rev : RevisionJson) (s : String) (b : Nat) (bs : List Nat)
    (hs : split_summary rev.desc = Except.ok s)
    (h1 : has_backout_markers s = false)
    (h2 : has_merge_markers rev = false)
    (h3 : has_no_bug_marker s = false)
    (h4 : has_uplift_markers s = false)
    (h5 : has_wpt_uplift_markers rev.user s = false)
    (h6 : parse_bugs s = b :: bs) :
    ((provider.fetchAttachments b = Except.error FetchFailure.httpError ∨
        ((∃ atts, provider.fetchAttachments b = Except.ok atts) ∧
          provider.fetchBugHistory b = Except.error FetchFailure.httpError)) →
      determine_review_system parse_bugs provider rev = Except.ok ReviewSystem.unknown) ∧
    ((provider.fetchAttachments b = Except.error FetchFailure.otherFailure ∨
        ((∃ atts, provider.fetchAttachments b = Except.ok atts) ∧
          provider.fetchBugHistory b = Except.error FetchFailure.otherFailure)) →
      determine_review_system parse_bugs provider rev =
        Except.error PyErr.uncaughtFetch) := by
  rw [determine_eq_classify_with_bug parse_bugs provider rev s b bs hs h1 h2 h3 h4 h5 h6]
  unfold classify_with_bug
  constructor
  · rintro (h | ⟨⟨atts, ha⟩, hh⟩)
    · rw [h]
    · rw [ha, hh]
  · rintro (h | ⟨⟨atts, ha⟩, hh⟩)
    · rw [h]
    · rw [ha, hh]

/-- Closed instance of the amended C5 theorem: an HTTP error yields unknown,
while an uncaught failure kind propagates. -/
theorem http_error_fetch_yields_unknown_witness :
    determine_review_system (fun _ => [7]) httpErrProvider simple_bug_revision =
        Except.ok ReviewSystem.unknown ∧
      determine_review_system (fun _ => [7]) crashProvider simple_bug_revision =
        Except.error PyErr.uncaughtFetch :=
  ⟨(http_error_fetch_yields_unknown _ httpErrProvider simple_bug_revision
      "Bug 7 - fix the thing" 7 [] rfl rfl rfl rfl rfl rfl rfl).1 (Or.inl rfl),
    (http_error_fetch_yields_unknown _ crashProvider simple_bug_revision
      "Bug 7 - fix the thing" 7 [] rfl rfl rfl rfl rfl rfl rfl).2 (Or.inl rfl)⟩

/-- Claim C6: when none of the summary-only checks match, the classifier uses
the first bug id `parse_bugs` finds in the summary: an empty parse result
yields `unknown` with no exception escaping, and a non-empty parse result
makes the outcome exactly the bug-id phase at the head of the list, so the
fetch is performed with the first id, never a later one. -/
theorem first_parsed_bug_id_is_used (parse_bugs : String → List Nat)
    (provider : BugDataProvider) (rev : RevisionJson) (s : String)
    (hs : split_summary rev.desc = Except.ok s)
    (h1 : has_backout_markers s = false)
    (h2 : has_merge_markers rev = false)
    (h3 : has_no_bug_marker s = false)
    (h4 : has_uplift_markers s = false)
    (h5 : has_wpt_uplift_markers rev.user s = false) :
    (parse_bugs s = [] →
      determine_review_system parse_bugs provider rev = Except.ok ReviewSystem.unknown) ∧
    (∀ b bs, parse_bugs s = b :: bs →
      determine_review_system parse_bugs provider rev = classify_with_bug provider b) := by
  constructor
  · intro h6
    unfold determine_review_system
    rw [hs]
    simp [h1, h2, h3, h4, h5, h6]
  · intro b bs h6
    exact determine_eq_classify_with_bug parse_bugs provider rev s b bs hs h1 h2 h3 h4 h5 h6

/-- Closed instance of the C6 theorem: no bug id yields unknown, and with ids
[3, 4] the classifier runs its bug phase on 3 rather than 4. -/
theorem first_parsed_bug_id_is_used_witness :
    determine_review_system (fun _ => []) emptyOkProvider simple_bug_revision =
        Except.ok ReviewSystem.unknown ∧
      determine_review_system (fun _ => [3, 4]) notAuthProvider simple_bug_revision =
        classify_with_bug notAuthProvider 3 :=
  ⟨(first_parsed_bug_id_is_used (fun _ => []) emptyOkProvider simple_bug_revision
      "Bug 7 - fix the thing" rfl rfl rfl rfl rfl rfl).1 rfl,
    (first_parsed_bug_id_is_used (fun _ => [3, 4]) notAuthProvider simple_bug_revision
      "Bug 7 - fix the thing" rfl rfl rfl rfl rfl rfl).2 3 [4] rfl⟩

/-- Characterization of `has_phab_markers`: some attachment of the list has
the Phabricator request content type (such an attachment always passes the
`is_patch` pre-filter, whose disjunction includes that very type). -/
theorem has_phab_markers_iff (attachments : List Attachment) :
    has_phab_markers attachments = true ↔
      ∃ a ∈ attachments, a.content_type = ATTACHMENT_TYPE_PHABRICATOR := by
  unfold has_phab_markers
  simp only [List.any_eq_true, List.mem_filter, beq_iff_eq]
  constructor
  · rintro ⟨a, ⟨ha, _⟩, hct⟩
    exact ⟨a, ha, hct⟩
  · rintro ⟨a, ha, hct⟩
    exact ⟨a, ⟨ha, by simp [is_patch, hct]⟩, hct⟩

/-- Characterization of `has_bmo_patch_review_markers`: a raw patch attachment
exists and some history change to `flagtypes.name` added `review+`. -/
theorem has_bmo_patch_review_markers_iff (attachments : List Attachment)
    (bug_history : List ChangeGroup) :
    has_bmo_patch_review_markers attachments bug_history = true ↔
      (∃ a ∈ attachments, a.is_patch = 1) ∧
        ∃ g ∈ bug_history, ∃ c ∈ g.changes,
          c.field_name = "flagtypes.name" ∧ "review+" ∈ splitFlags c.added := by
  simp only [has_bmo_patch_review_markers]
  by_cases hemp : (attachments.filter fun a => a.is_patch == 1).isEmpty
  · rw [if_pos hemp]
    rw [List.isEmpty_iff, List.filter_eq_nil_iff] at hemp
    simp only [Bool.false_eq_true, false_iff]
    rintro ⟨⟨a, ha, hp⟩, -⟩
    exact absurd (by simp [hp] : (a.is_patch == 1) = true) (by simpa using hemp a ha)
  · rw [if_neg hemp]
    rw [List.isEmpty_iff] at hemp
    have hpatch : ∃ a ∈ attachments, a.is_patch = 1 := by
      rcases List.exists_mem_of_ne_nil _ hemp with ⟨a, ha⟩
      rcases List.mem_filter.mp ha with ⟨hmem, hp⟩
      exact ⟨a, hmem, by simpa using hp⟩
    simp only [List.any_eq_true, Bool.and_eq_true, beq_iff_eq, List.elem_iff]
    constructor
    · rintro ⟨g, hg, c, hc, hf, hrev⟩
      exact ⟨hpatch, g, hg, c, hc, hf, hrev⟩
    · rintro ⟨_, g, hg, c, hc, hf, hrev⟩
      exact ⟨g, hg, c, hc, hf, hrev⟩

/-- Bug-id phase after both fetches succeed: the Phabricator check, then the
BMO patch-review check, then unknown. -/
theorem classify_with_bug_after_ok_fetch (provider : BugDataProvider) (b : Nat)
    (atts : List Attachment) (hist : List ChangeGroup)
    (ha : provider.fetchAttachments b = Except.ok atts)
    (hh : provider.fetchBugHistory b = Except.ok hist) :
    classify_with_bug provider b =
      (if has_phab_markers (collect_review_attachments atts) then
        Except.ok ReviewSystem.phabricator
      else if has_bmo_patch_review_markers (collect_review_attachments atts) hist then
        Except.ok ReviewSystem.bmo
      else Except.ok ReviewSystem.unknown) := by
  unfold classify_with_bug
  rw [ha, hh]

/-- Claim C7: after a successful bug-data fetch, with A the attachment list
narrowed by `collect_review_attachments`, the classifier returns
`phabricator` if some attachment of A is Phabricator-typed (preferred even
when a reviewed BMO patch is also present); otherwise it returns `bmo` if and
only if some attachment of A has `is_patch == 1` and the bug history has a
`flagtypes.name` change whose added flags include `review+`; otherwise it
returns `unknown`. -/
theorem phabricator_preferred_then_bmo_then_unknown (parse_bugs : String → List Nat)
    (provider : BugDataProvider) (rev : RevisionJson) (s : String) (b : Nat) (bs : List Nat)
    (atts : List Attachment) (hist : List ChangeGroup)
    (hs : split_summary rev.desc = Except.ok s)
    (h1 : has_backout_markers s = false)
    (h2 : has_merge_markers rev = false)
    (h3 : has_no_bug_marker s = false)
    (h4 : has_uplift_markers s = false)
    (h5 : has_wpt_uplift_markers rev.user s = false)
    (h6 : parse_bugs s = b :: bs)
    (ha : provider.fetchAttachments b = Except.ok atts)
    (hh : provider.fetchBugHistory b = Except.ok hist) :
    ((∃ a ∈ collect_review_attachments atts,
        a.content_type = ATTACHMENT_TYPE_PHABRICATOR) →
      determine_review_system parse_bugs provider rev =
        Except.ok ReviewSystem.phabricator) ∧
    ((¬ ∃ a ∈ collect_review_attachments atts,
        a.content_type = ATTACHMENT_TYPE_PHABRICATOR) →
      (determine_review_system parse_bugs provider rev = Except.ok ReviewSystem.bmo ↔
        (∃ a ∈ collect_review_attachments atts, a.is_patch = 1) ∧
          ∃ g ∈ hist, ∃ c ∈ g.changes,
            c.field_name = "flagtypes.name" ∧ "review+" ∈ splitFlags c.added)) ∧
    ((¬ ∃ a ∈ collect_review_attachments atts,
        a.content_type = ATTACHMENT_TYPE_PHABRICATOR) →
      (¬ ((∃ a ∈ collect_review_attachments atts, a.is_patch = 1) ∧
          ∃ g ∈ hist, ∃ c ∈ g.changes,
            c.field_name = "flagtypes.name" ∧ "review+" ∈ splitFlags c.added)) →
      determine_review_system parse_bugs provider rev = Except.ok ReviewSystem.unknown) := by
  rw [determine_eq_classify_with_bug parse_bugs provider rev s b bs hs h1 h2 h3 h4 h5 h6,
    classify_with_bug_after_ok_fetch provider b atts hist ha hh]
  refine ⟨?_, ?_, ?_⟩
  · intro hphab
    rw [if_pos ((has_phab_markers_iff _).mpr hphab)]
  · intro hnphab
    have hp : ¬ has_phab_markers (collect_review_attachments atts) = true :=
      fun h => hnphab ((has_phab_markers_iff _).mp h)
    rw [if_neg hp]
    by_cases hbmo : has_bmo_patch_review_markers (collect_review_attachments atts) hist = true
    · rw [if_pos hbmo]
      simpa using (has_bmo_patch_review_markers_iff _ _).mp hbmo
    · rw [if_neg hbmo]
      constructor
      · intro h
        exact absurd h (by simp)
      · intro h
        exact absurd ((has_bmo_patch_review_markers_iff _ _).mpr h) hbmo
  · intro hnphab hnbmo
    have hp : ¬ has_phab_markers (collect_review_attachments atts) = true :=
      fun h => hnphab ((has_phab_markers_iff _).mp h)
    have hb : ¬ has_bmo_patch_review_markers (collect_review_attachments atts) hist = true :=
      fun h => hnbmo ((has_bmo_patch_review_markers_iff _ _).mp h)
    rw [if_neg hp, if_neg hb]

/-- Closed instance of the C7 theorem at the test scenario where a Phabricator
attachment and a reviewed BMO patch attachment are both present: the outcome
is phabricator. -/
theorem phabricator_preferred_then_bmo_then_unknown_witness :
    determine_review_system parse_bugs_sample phabAndPatchProvider sample_revision =
      Except.ok ReviewSystem.phabricator :=
  (phabricator_preferred_then_bmo_then_unknown parse_bugs_sample phabAndPatchProvider
      sample_revision "Bug 1463962 - crash near null, r=jamie" 1463962 []
      [phabricator_attachment, bmo_patch_attachment] patch_review_history
      rfl rfl rfl rfl rfl rfl rfl rfl rfl).1
    ⟨phabricator_attachment, by decide, rfl⟩

/-- The bug-id phase never produces the mozreview tag. -/
theorem classify_with_bug_ne_mozreview (provider : BugDataProvider) (b : Nat) :
    classify_with_bug provider b ≠ Except.ok ReviewSystem.mozreview := by
  unfold classify_with_bug
  cases provider.fetchAttachments b with
  | error f => cases f <;> simp
  | ok atts =>
    cases provider.fetchBugHistory b with
    | error f => cases f <;> simp
    | ok hist =>
      by_cases hp : has_phab_markers (collect_review_attachments atts)
      · simp [hp]
      · by_cases hb : has_bmo_patch_review_markers (collect_review_attachments atts) hist
        · simp [hp, hb]
        · simp [hp, hb]

/-- Claim C8: for every commit input, every behaviour of the external bug
parser and every behaviour of the bug-data provider,
`determine_review_system` never returns `ReviewSystem.mozreview`: the tag
exists in the enumeration but no code path produces it. -/
theorem mozreview_is_never_produced (parse_bugs : String → List Nat)
    (provider : BugDataProvider) (rev : RevisionJson) :
    determine_review_system parse_bugs provider rev ≠
      Except.ok ReviewSystem.mozreview := by
  unfold determine_review_system
  split
  · simp
  · split
    · simp
    · split
      · simp
      · split
        · simp
        · split
          · simp
          · split
            · simp
            · split
              · simp
              · exact classify_with_bug_ne_mozreview provider _

/-- Closed instance of the C8 theorem at the historical MozReview test
scenario: even there the classifier does not answer mozreview. -/
theorem mozreview_is_never_produced_witness :
    ¬ determine_review_system parse_bugs_sample mozreviewAndPatchProvider sample_revision =
        Except.ok ReviewSystem.mozreview :=
  mozreview_is_never_produced parse_bugs_sample mozreviewAndPatchProvider sample_revision

/-- Inside a hunk body nothing is counted on a line whose first character is
neither `+` nor `-`; outside a hunk nothing is counted at all. -/
theorem bodyDelta_false (l : List Char) : bodyDelta false l = (0, 0) := by
  unfold bodyDelta
  split
  · rfl
  · simp

/-- A patch whose lines carry no diff structure marker contributes no counts,
whatever the file-open flag, as long as no hunk is open. -/
theorem scanPatchLines_no_marker (lines : List (List Char))
    (h : ∀ l ∈ lines, diffMarkerLine l = false) (fileOpen : Bool) :
    scanPatchLines lines fileOpen false = (0, 0, 0) := by
  induction lines generalizing fileOpen with
  | nil => rfl
  | cons l ls ih =>
    have hl : diffMarkerLine l = false := h l (List.mem_cons_self l ls)
    have hrest : ∀ x ∈ ls, diffMarkerLine x = false := fun x hx =>
      h x (List.mem_cons_of_mem l hx)
    have hl' := hl
    simp only [diffMarkerLine, Bool.or_eq_false_iff] at hl'
    obtain ⟨⟨hd, hm⟩, hh⟩ := hl'
    cases ls with
    | nil =>
      show scanPatchLines [l] fileOpen false = (0, 0, 0)
      unfold scanPatchLines
      rw [if_neg (by simp [hd]), bodyDelta_false]
    | cons l2 rest =>
      show scanPatchLines (l :: l2 :: rest) fileOpen false = (0, 0, 0)
      unfold scanPatchLines
      rw [if_neg (by simp [hd]), if_neg (by simp [hm]), bodyDelta_false]
      have hflag : hunkFlagAfter false l = false := by
        unfold hunkFlagAfter
        rw [if_neg (by simp [hh])]
      rw [hflag, ih hrest fileOpen]
      simp

/-- Claim C9 (the diffstat parser is modelled from the spec, the module being
absent from src/): `diffstat` is a total function, so no input makes it raise,
and any text without a single unified-diff structure marker — no git file
header, no `--- ` header line, no `@@` hunk header — yields the all-zero
`DiffStat`. -/
theorem unparseable_text_yields_zero_diffstat (rawPatchText : String)
    (h : parseableAsDiff rawPatchText = false) :
    diffstat rawPatchText = { files_changed := 0, additions := 0, deletions := 0 } := by
  unfold diffstat
  rw [scanPatchLines_no_marker (pySplitChars '\n' rawPatchText.data)
      (by simpa [parseableAsDiff, List.any_eq_false] using h) false]

/-- Closed instance of the C9 theorem on prose that is no unified diff. -/
theorem unparseable_text_yields_zero_diffstat_witness :
    parseableAsDiff "server log line one\nerror: walrus + seal - otter\n" = false ∧
      diffstat "server log line one\nerror: walrus + seal - otter\n" =
        { files_changed := 0, additions := 0, deletions := 0 } :=
  ⟨rfl, unparseable_text_yields_zero_diffstat _ rfl⟩

/-- Claim C10: `split_summary` is defined only for strings with at least one
line: on the empty string it raises `IndexError` (Python's
`''.splitlines()` is the empty list, so indexing it fails), and therefore
`determine_review_system` applied to revision JSON whose `desc` is the empty
string raises `IndexError` instead of returning a `ReviewSystem` tag; callers
must supply a non-empty `desc`. -/
theorem empty_desc_raises_index_error :
    split_summary "" = Except.error PyErr.indexError ∧
      ∀ (parse_bugs : String → List Nat) (provider : BugDataProvider) (rev : RevisionJson),
        rev.desc = "" →
          determine_review_system parse_bugs provider rev =
            Except.error PyErr.indexError := by
  refine ⟨rfl, fun parse_bugs provider rev h => ?_⟩
  unfold determine_review_system
  rw [h]
  rfl

/-- Closed instance of the C10 theorem at a concrete empty-description
revision. -/
theorem empty_desc_raises_index_error_witness :
    determine_review_system (fun _ => []) emptyOkProvider
        { desc := "", node := "n", user := "u", parents := [] } =
      Except.error PyErr.indexError :=
  empty_desc_raises_index_error.2 (fun _ => []) emptyOkProvider
    { desc := "", node := "n", user := "u", parents := [] } rfl

end CommitTelemetry
